import Mathlib

/-!
Verification of the snapshot manifest generator (`scripts/generate_manifest.py`).

The development shallowly embeds the script: file bytes are `List Nat` (one
entry per byte), CBOR values decoded by `cbor2.load` are an inductive `CBOR`,
Python truthiness / `dict.get` / `int(...)` are modelled explicitly, and code
that may raise a Python exception is embedded as `Except String`.  SHA-256 is
implemented in full so the integrity hasher is not abstracted.
-/

set_option maxRecDepth 10000

/-! ## Bytes and hex encoding -/

/-- The sixteen lowercase hex digit characters. -/
def hexChars : List Char := "0123456789abcdef".data

/-- Lowercase hex digit for a nibble (used by `bytes.hex()` and `hexdigest()`). -/
def hexDigitChar (n : Nat) : Char := hexChars.getD (n % 16) '0'

/-- Lowercase hex encoding of a byte list, two characters per byte, as produced
by Python `bytes.hex()` and `hashlib`'s `hexdigest()`. -/
def bytesToHex (bs : List Nat) : String :=
  String.mk (bs.foldr (fun b acc => hexDigitChar (b / 16) :: hexDigitChar (b % 16) :: acc) [])

/-- A character is a lowercase hex digit. -/
def isLowerHexChar (c : Char) : Bool := c.isDigit || ('a' ≤ c && c ≤ 'f')

/-- A string consists only of lowercase hex digits. -/
def isLowerHexString (s : String) : Bool := s.data.all isLowerHexChar

/-! ## SHA-256 (the digest behind `hashlib.sha256`) -/

/-- Addition on 32-bit words. -/
def add32 (a b : Nat) : Nat := (a + b) % 4294967296

/-- Right rotation on 32-bit words. -/
def rotr32 (x n : Nat) : Nat := ((x >>> n) ||| (x <<< (32 - n))) % 4294967296

/-- SHA-256 `Ch` function. -/
def shaCh (e f g : Nat) : Nat := (e &&& f) ^^^ ((e ^^^ 4294967295) &&& g)

/-- SHA-256 `Maj` function. -/
def shaMaj (a b c : Nat) : Nat := (a &&& b) ^^^ (a &&& c) ^^^ (b &&& c)

/-- SHA-256 big sigma 0. -/
def bigS0 (a : Nat) : Nat := rotr32 a 2 ^^^ rotr32 a 13 ^^^ rotr32 a 22

/-- SHA-256 big sigma 1. -/
def bigS1 (e : Nat) : Nat := rotr32 e 6 ^^^ rotr32 e 11 ^^^ rotr32 e 25

/-- SHA-256 small sigma 0. -/
def smallS0 (x : Nat) : Nat := rotr32 x 7 ^^^ rotr32 x 18 ^^^ (x >>> 3)

/-- SHA-256 small sigma 1. -/
def smallS1 (x : Nat) : Nat := rotr32 x 17 ^^^ rotr32 x 19 ^^^ (x >>> 10)

/-- The 64 SHA-256 round constants. -/
def K64 : List Nat :=
  [1116352408, 1899447441, 3049323471, 3921009573, 961987163, 1508970993,
   2453635748, 2870763221, 3624381080, 310598401, 607225278, 1426881987,
   1925078388, 2162078206, 2614888103, 3248222580, 3835390401, 4022224774,
   264347078, 604807628, 770255983, 1249150122, 1555081692, 1996064986,
   2554220882, 2821834349, 2952996808, 3210313671, 3336571891, 3584528711,
   113926993, 338241895, 666307205, 773529912, 1294757372, 1396182291,
   1695183700, 1986661051, 2177026350, 2456956037, 2730485921, 2820302411,
   3259730800, 3345764771, 3516065817, 3600352804, 4094571909, 275423344,
   430227734, 506948616, 659060556, 883997877, 958139571, 1322822218,
   1537002063, 1747873779, 1955562222, 2024104815, 2227730452, 2361852424,
   2428436474, 2756734187, 3204031479, 3329325298]

/-- Working state of the SHA-256 compression function. -/
structure SHAState where
  a : Nat
  b : Nat
  c : Nat
  d : Nat
  e : Nat
  f : Nat
  g : Nat
  h : Nat

/-- The SHA-256 initial hash value. -/
def shaInit : SHAState :=
  ⟨1779033703, 3144134277, 1013904242, 2773480762, 1359893119, 2600822924, 528734635, 1541459225⟩

/-- Big-endian 8-byte encoding of a natural number (for the length field). -/
def be8 (n : Nat) : List Nat :=
  [(n >>> 56) % 256, (n >>> 48) % 256, (n >>> 40) % 256, (n >>> 32) % 256,
   (n >>> 24) % 256, (n >>> 16) % 256, (n >>> 8) % 256, n % 256]

/-- Big-endian 4-byte encoding of a 32-bit word. -/
def be4 (w : Nat) : List Nat :=
  [(w >>> 24) % 256, (w >>> 16) % 256, (w >>> 8) % 256, w % 256]

/-- SHA-256 message padding: `0x80`, zeros to 56 mod 64, then the bit length. -/
def padMessage (msg : List Nat) : List Nat :=
  let L := msg.length
  let k := (64 + 56 - (L + 1) % 64) % 64
  msg ++ [128] ++ List.replicate k 0 ++ be8 (8 * L)

/-- Split a byte list into chunks of `sz` bytes (the final chunk may be short);
`sz = 0` yields no chunks.  This is both the block splitter of SHA-256 and the
model of the `f.read(chunk_size)` loop: `read(0)` returns an empty chunk, so
the streaming loop terminates at once having consumed nothing. -/
def chunksOf (sz : Nat) (l : List Nat) : List (List Nat) :=
  if h : sz = 0 ∨ l = [] then []
  else l.take sz :: chunksOf sz (l.drop sz)
termination_by l.length
decreasing_by
  push_neg at h
  simp only [List.length_drop]
  have hl : l.length ≠ 0 := fun hc => h.2 (List.length_eq_zero.mp hc)
  omega

/-- A 64-byte block as sixteen big-endian 32-bit words. -/
def wordsOfBlock (block : List Nat) : List Nat :=
  (chunksOf 4 block).map (fun c => c.foldl (fun acc x => acc * 256 + x) 0)

/-- Extend sixteen message words to the 64-entry SHA-256 message schedule. -/
def extendWords (ws : Array Nat) : Array Nat :=
  (List.range 48).foldl
    (fun a _ =>
      let n := a.size
      a.push (add32 (add32 (smallS1 (a.getD (n - 2) 0)) (a.getD (n - 7) 0))
                    (add32 (smallS0 (a.getD (n - 15) 0)) (a.getD (n - 16) 0))))
    ws

/-- One SHA-256 round: fold the round constant and schedule word into the state. -/
def compressWord (s : SHAState) (kw : Nat × Nat) : SHAState :=
  let t1 := add32 s.h (add32 (bigS1 s.e) (add32 (shaCh s.e s.f s.g) (add32 kw.1 kw.2)))
  let t2 := add32 (bigS0 s.a) (shaMaj s.a s.b s.c)
  ⟨add32 t1 t2, s.a, s.b, s.c, add32 s.d t1, s.e, s.f, s.g⟩

/-- Compress one 64-byte block into the running hash value. -/
def compressBlock (H : SHAState) (block : List Nat) : SHAState :=
  let ws := extendWords (Array.mk (wordsOfBlock block))
  let s := (K64.zip ws.toList).foldl compressWord H
  ⟨add32 H.a s.a, add32 H.b s.b, add32 H.c s.c, add32 H.d s.d,
   add32 H.e s.e, add32 H.f s.f, add32 H.g s.g, add32 H.h s.h⟩

/-- The 32 digest bytes of SHA-256 over a byte list. -/
def sha256bytes (msg : List Nat) : List Nat :=
  let F := (chunksOf 64 (padMessage msg)).foldl compressBlock shaInit
  be4 F.a ++ be4 F.b ++ be4 F.c ++ be4 F.d ++ be4 F.e ++ be4 F.f ++ be4 F.g ++ be4 F.h

/-- Lowercase-hex SHA-256 digest of a byte list (`hashlib`'s `hexdigest()`). -/
def sha256hex (msg : List Nat) : String := bytesToHex (sha256bytes msg)

/-! ## `compute_sha256`: the streaming hasher -/

/-- Embedding of `compute_sha256`: the read loop feeds the file to the hasher
in `chunk_size`-byte chunks; the hasher state is the byte sequence fed so far
(`update` concatenates), and `hexdigest` is SHA-256 over that sequence. -/
def compute_sha256 (content : List Nat) (chunk_size : Nat) : String :=
  sha256hex ((chunksOf chunk_size content).foldl (fun acc chunk => acc ++ chunk) [])

/-! ## CBOR values and Python semantics -/

/-- A CBOR value as decoded by `cbor2.load` into a Python object: integers,
byte strings, text strings, arrays, maps, `None` and booleans. -/
inductive CBOR where
  | int (n : Int)
  | bytes (bs : List Nat)
  | str (s : String)
  | arr (xs : List CBOR)
  | map (kvs : List (CBOR × CBOR))
  | null
  | bool (b : Bool)

/-- Python truthiness of a decoded value: zero, empty containers, empty
strings, `None` and `False` are falsy. -/
def pyFalsy : CBOR → Bool
  | .int n => n == 0
  | .bytes bs => bs.isEmpty
  | .str s => s == ""
  | .arr xs => xs.isEmpty
  | .map kvs => kvs.isEmpty
  | .null => true
  | .bool b => !b

/-- The value `is None` check: both an absent key (modelled as `.null`) and a
present `None` value satisfy it. -/
def isPyNone : CBOR → Bool
  | .null => true
  | _ => false

/-- Python `==` between a decoded map key and an `int` literal: an integer key
matches by value and a boolean key matches its 0/1 value (`True == 1`). -/
def keyEqInt (k : Int) : CBOR → Bool
  | .int n => n == k
  | .bool b => (if b then (1 : Int) else 0) == k
  | _ => false

/-- Python `dict.get(k)` on the dict built from a CBOR map: with duplicate keys the
later entry wins, as in Python dict construction. -/
def dictGet (kvs : List (CBOR × CBOR)) (k : Int) : Option CBOR :=
  (kvs.reverse.find? (fun p => keyEqInt k p.1)).map (fun p => p.2)

/-- Python `dict.get(k, d)`: lookup with a default. -/
def dictGetD (kvs : List (CBOR × CBOR)) (k : Int) (d : CBOR) : CBOR :=
  (dictGet kvs k).getD d

/-- Python `x or 0` on a decoded value: a falsy value is replaced by `0`. -/
def pyOrZero (v : CBOR) : CBOR := if pyFalsy v then .int 0 else v

/-- Python `v > 0`: defined for integers and booleans (`True > 0` is `True`);
any other operand type raises `TypeError`. -/
def pyGtZero : CBOR → Except String Bool
  | .int n => .ok (decide (0 < n))
  | .bool b => .ok b
  | _ => .error "TypeError: comparison not supported"

/-- Python `v.hex()`: defined for byte strings; any other decoded value (an
integer, a text string, ...) raises `AttributeError`. -/
def pyBytesHex : CBOR → Except String String
  | .bytes bs => .ok (bytesToHex bs)
  | _ => .error "AttributeError: object has no attribute hex"

/-! ## Python `int(...)` on strings -/

/-- The ASCII whitespace characters stripped by Python `int(str)`. -/
def isPySpace (c : Char) : Bool :=
  c == ' ' || c == '\t' || c == '\n' || c == '\r' || c == '\x0b' || c == '\x0c'

/-- Strip leading and trailing whitespace. -/
def stripSpaces (cs : List Char) : List Char :=
  ((cs.dropWhile isPySpace).reverse.dropWhile isPySpace).reverse

/-- Digits of a Python integer literal after the first: a single underscore is
allowed only between two digits. -/
def digitsVal (acc : Nat) : List Char → Option Nat
  | [] => some acc
  | '_' :: c :: rest =>
      if c.isDigit then digitsVal (acc * 10 + (c.toNat - 48)) rest else none
  | ['_'] => none
  | c :: rest =>
      if c.isDigit then digitsVal (acc * 10 + (c.toNat - 48)) rest else none

/-- An unsigned decimal literal: must begin with a digit. -/
def parseUDigits : List Char → Option Nat
  | [] => none
  | c :: rest => if c.isDigit then digitsVal (c.toNat - 48) rest else none

/-- Embedding of Python `int(s)` for decimal strings: strip whitespace, accept
an optional sign, then digits with underscores between digits; `none` models
the `ValueError` caught by the caller. -/
def pyInt (s : String) : Option Int :=
  match stripSpaces s.data with
  | '+' :: rest => (parseUDigits rest).map (fun n => (n : Int))
  | '-' :: rest => (parseUDigits rest).map (fun n => -(n : Int))
  | cs => (parseUDigits cs).map (fun n => (n : Int))

/-! ## `parse_cbor_header` -/

/-- The fields `parse_cbor_header` extracts from the header map (the returned
dict minus the `version` entry). -/
structure HeaderCore where
  era : CBOR
  block_height : CBOR
  block_hash : String
  governance_section_present : Bool

/-- The full result dict of `parse_cbor_header`. -/
structure HeaderInfo where
  version : CBOR
  era : CBOR
  block_height : CBOR
  block_hash : String
  governance_section_present : Bool

/-- The body of `parse_cbor_header` from `header = data[1]` on: extract keys
0, 1, 2, 4, 5; reject (return `None`) when era or the hash is falsy or the
height `is None`; convert the hash with `.hex()` and compute
`(gov or 0) > 0 or (params or 0) > 0` — these two statements sit outside the
`try`, so a wrongly-typed field raises. -/
def parseHeaderFields (header : CBOR) : Except String (Option HeaderCore) :=
  match header with
  | .map kvs =>
      let era := dictGetD kvs 0 .null
      let block_height := dictGetD kvs 1 .null
      let block_hash_bytes := dictGetD kvs 2 .null
      let declared_gov_actions := dictGetD kvs 4 (.int 0)
      let declared_param_sets := dictGetD kvs 5 (.int 0)
      if pyFalsy era || isPyNone block_height || pyFalsy block_hash_bytes then
        .ok none
      else
        match pyBytesHex block_hash_bytes with
        | .error e => .error e
        | .ok block_hash =>
            match pyGtZero (pyOrZero declared_gov_actions) with
            | .error e => .error e
            | .ok g1 =>
                match (if g1 then .ok true else pyGtZero (pyOrZero declared_param_sets) :
                        Except String Bool) with
                | .error e => .error e
                | .ok governance_present =>
                    .ok (some { era, block_height, block_hash,
                                governance_section_present := governance_present })
  | _ => .ok none

/-- Embedding of `parse_cbor_header`.  `loadResult` is the outcome of
`cbor2.load` on the file (`none` when it raised — the only statement guarded
by the `try`/`except`).  Returns `.ok none` for the fallback path, `.ok (some h)`
for a parsed header, and `.error` when the unguarded field extraction raises.
Files over 64 MiB are never parsed; the top-level shape check is
`isinstance(data, list) and len(data) >= 2`. -/
def parse_cbor_header (size_bytes : Nat) (loadResult : Option CBOR) :
    Except String (Option HeaderInfo) :=
  if size_bytes > 64 * 1024 * 1024 then .ok none
  else
    match loadResult with
    | none => .ok none
    | some (.arr (version :: header :: _)) =>
        (parseHeaderFields header).map (Option.map (fun c =>
          { version := version, era := c.era, block_height := c.block_height,
            block_hash := c.block_hash,
            governance_section_present := c.governance_section_present }))
    | some _ => .ok none

/-! ## `derive_from_filename` -/

/-- Python `c in '0123456789abcdefABCDEF'`. -/
def isHexCharPy (c : Char) : Bool :=
  ("0123456789abcdefABCDEF".data).contains c

/-- Python `str.split('.')` on a character list: every dot separates, empty
components are kept, and the empty string splits to one empty component. -/
def splitOnDot : List Char → List (List Char)
  | [] => [[]]
  | c :: rest =>
      if c == '.' then [] :: splitOnDot rest
      else
        match splitOnDot rest with
        | [] => [[c]]
        | p :: ps => (c :: p) :: ps

/-- Python `str.split('.')` on a string. -/
def pySplitDot (s : String) : List String := (splitOnDot s.data).map String.mk

/-- Python `str.lower()` (ASCII case mapping). -/
def pyLower (s : String) : String := String.mk (s.data.map Char.toLower)

/-- Embedding of `derive_from_filename`: split the name on dots; require at
least three components with last component `cbor` (case-insensitive); parse
the first as `int(...)`; accept the second when all its characters are hex
digits (vacuously true for an empty component). -/
def derive_from_filename (name : String) : Option Int × Option String :=
  let parts := pySplitDot name
  if (parts.length ≥ 3 && pyLower (parts.getLastD "") == "cbor") then
    match pyInt (parts.headD "") with
    | none => (none, none)
    | some slot =>
        let hash_hex := parts.getD 1 ""
        if hash_hex.data.all isHexCharPy then (some slot, some (pyLower hash_hex))
        else (none, none)
  else (none, none)

/-! ## `generate_manifest` -/

/-- A snapshot file as the script sees it: its name, its raw bytes, and the
outcome of `cbor2.load` over those bytes (`none` when the decoder raises). -/
structure FileModel where
  name : String
  content : List Nat
  loadResult : Option CBOR

/-- A UTC wall-clock instant at second precision (`datetime.now(timezone.utc)`). -/
structure DateTimeUTC where
  year : Nat
  month : Nat
  day : Nat
  hour : Nat
  minute : Nat
  second : Nat

/-- Zero-pad to two digits (`%m`, `%d`, `%H`, `%M`, `%S`). -/
def pad2 (n : Nat) : String := if n < 10 then "0" ++ toString n else toString n

/-- Zero-pad to four digits (`%Y`). -/
def pad4 (n : Nat) : String :=
  if n < 10 then "000" ++ toString n
  else if n < 100 then "00" ++ toString n
  else if n < 1000 then "0" ++ toString n
  else toString n

/-- The format `strftime("%Y-%m-%dT%H:%M:%SZ")` over a UTC instant. -/
def strftimeUTC (t : DateTimeUTC) : String :=
  (pad4 t.year ++ "-" ++ pad2 t.month ++ "-" ++ pad2 t.day ++ "T" ++
   pad2 t.hour ++ ":" ++ pad2 t.minute ++ ":" ++ pad2 t.second) ++ "Z"

/-- The manifest dict assembled by `generate_manifest`, one field per key in
construction order.  `era` and `block_height` hold whatever decoded value the
header supplied (the script does not coerce their types), so they are `CBOR`. -/
structure Manifest where
  magic : String
  version : String
  era : CBOR
  block_height : CBOR
  block_hash : String
  sha256 : String
  created_at : String
  size_bytes : Nat
  governance_section_present : Bool

/-- Python `a or b` on an optional int where `0` is falsy: keep `a`'s value
only when it is present and nonzero. -/
def truthyInt (o : Option Int) : Option Int :=
  o.bind (fun n => if n == 0 then none else some n)

/-- Python `a or b` on an optional string where `""` is falsy. -/
def truthyStr (o : Option String) : Option String :=
  o.bind (fun s => if s == "" then none else some s)

/-- Python `a or b or d` on optional ints, as in `block_height_opt or slot_from_name or 1`. -/
def firstTruthyInt (a b : Option Int) (d : Int) : Int :=
  match truthyInt a with
  | some n => n
  | none =>
      match truthyInt b with
      | some n => n
      | none => d

/-- Python `a or b or d` on optional strings. -/
def firstTruthyStr (a b : Option String) (d : String) : String :=
  match truthyStr a with
  | some s => s
  | none =>
      match truthyStr b with
      | some s => s
      | none => d

/-- Embedding of `generate_manifest`.  `file = none` models a missing snapshot
path (`FileNotFoundError`); an `.error` result models an uncaught Python
exception.  `now` stands for the instant `datetime.now(timezone.utc)` returns. -/
def generate_manifest (file : Option FileModel) (era_opt : Option String)
    (block_hash_opt : Option String) (block_height_opt : Option Int)
    (now : DateTimeUTC) : Except String Manifest :=
  match file with
  | none => .error "FileNotFoundError: Snapshot file not found"
  | some f =>
      let size_bytes := f.content.length
      match parse_cbor_header size_bytes f.loadResult with
      | .error e => .error e
      | .ok header =>
          let (era, block_height, block_hash, governance_present) :=
            match header with
            | none =>
                let sf := derive_from_filename f.name
                let block_height := firstTruthyInt block_height_opt sf.1 1
                let block_hash := pyLower (firstTruthyStr block_hash_opt sf.2 "unknown")
                let era := firstTruthyStr era_opt none "conway"
                (CBOR.str era, CBOR.int block_height, block_hash, false)
            | some h => (h.era, h.block_height, h.block_hash, h.governance_section_present)
          let sha256 := compute_sha256 f.content (16 * 1024 * 1024)
          .ok { magic := "CARDANO_SNAPSHOT", version := "1.0.0",
                era := era, block_height := block_height, block_hash := block_hash,
                sha256 := sha256, created_at := strftimeUTC now,
                size_bytes := size_bytes,
                governance_section_present := governance_present }

/-! ## Concrete fixtures and specification restatements -/

/-- A fixed UTC instant standing in for `datetime.now(timezone.utc)`. -/
def t0 : DateTimeUTC := ⟨2026, 10, 12, 0, 0, 0⟩

/-- A 32-byte block hash. -/
def hash32 : List Nat := List.replicate 32 17

/-- A header map with valid era, height and 32-byte hash and no declared counts. -/
def validKvs : List (CBOR × CBOR) :=
  [(.int 0, .str "conway"), (.int 1, .int 1000000), (.int 2, .bytes hash32)]

/-- An envelope whose header has an integer where the block hash bytes belong. -/
def intHashEnvelope : CBOR :=
  .arr [.int 1, .map [(.int 0, .str "conway"), (.int 1, .int 5), (.int 2, .int 7)]]

/-- A small (3-byte) snapshot file decoding to `intHashEnvelope`. -/
def intHashFile : FileModel := ⟨"snapshot.cbor", [1, 2, 3], some intHashEnvelope⟩

/-- The header parsed out of `[_, validKvs, ...]` with version 1. -/
def validHeaderInfo : HeaderInfo :=
  ⟨.int 1, .str "conway", .int 1000000, bytesToHex hash32, false⟩

/-- The top-level value is a sequence of at least two elements. -/
def envelopeAtLeastTwo : CBOR → Bool
  | .arr (_ :: _ :: _) => true
  | _ => false

/-- An envelope whose version is 99. -/
def version99Envelope : CBOR := .arr [.int 99, .map validKvs]

/-- A 1-byte file decoding to the version-99 envelope. -/
def version99File : FileModel := ⟨"x.cbor", [0], some version99Envelope⟩

/-- The header parsed out of the version-99 envelope. -/
def version99HeaderInfo : HeaderInfo :=
  ⟨.int 99, .str "conway", .int 1000000, bytesToHex hash32, false⟩

/-- A header map whose block hash is a single byte. -/
def shortHashKvs : List (CBOR × CBOR) :=
  [(.int 0, .str "conway"), (.int 1, .int 5), (.int 2, .bytes [171])]

/-- Restatement of the fallback filename rule as the code actually enforces
it: values are derived exactly when the dot-split has at least three
components, the last component is `cbor` case-insensitively, the second
component consists only of hex digits (an empty component passes vacuously),
and the first parses as a Python integer (signs and digit underscores
allowed); the derived pair is the parsed integer and the lowercased second
component. -/
def derive_from_filename_spec (name : String) : Option Int × Option String :=
  let parts := pySplitDot name
  if ((parts.length ≥ 3 && pyLower (parts.getLastD "") == "cbor") &&
      (parts.getD 1 "").data.all isHexCharPy) then
    match pyInt (parts.headD "") with
    | some slot => (some slot, some (pyLower (parts.getD 1 "")))
    | none => (none, none)
  else (none, none)

/-- A fallback-path file named `5.ab.cbor` (its CBOR decode raises). -/
def zeroOverrideFile : FileModel := ⟨"5.ab.cbor", [], none⟩

/-- A fallback-path file named `7.cd.cbor`. -/
def precedenceFile : FileModel := ⟨"7.cd.cbor", [], none⟩

/-- The manifest built for `precedenceFile` with overrides
`era = "alonzo"`, `hash = "AB"`, `height = 9`. -/
def precedenceManifest : Manifest :=
  ⟨"CARDANO_SNAPSHOT", "1.0.0", .str "alonzo", .int 9, "ab",
   compute_sha256 [] (16 * 1024 * 1024), strftimeUTC t0, 0, false⟩

/-- A fallback-path file whose name matches no pattern. -/
def unknownHashFile : FileModel := ⟨"data.bin", [7], none⟩

/-- A minimal fallback-path file. -/
def emptyFallbackFile : FileModel := ⟨"x", [], none⟩

/-- The fallback manifest for `emptyFallbackFile` with no overrides. -/
def emptyFallbackManifest : Manifest :=
  ⟨"CARDANO_SNAPSHOT", "1.0.0", .str "conway", .int 1, "unknown",
   compute_sha256 [] (16 * 1024 * 1024), strftimeUTC t0, 0, false⟩

/-- A header map declaring 2 governance actions and 0 parameter sets. -/
def govKvs : List (CBOR × CBOR) :=
  [(.int 0, .str "conway"), (.int 1, .int 5), (.int 2, .bytes [171]),
   (.int 4, .int 2), (.int 5, .int 0)]

/-- The header parsed out of `govKvs`. -/
def govHeaderInfo : HeaderInfo := ⟨.int 1, .str "conway", .int 5, "ab", true⟩

/-- A fallback-path file for the governance witness. -/
def govFallbackFile : FileModel := ⟨"z", [], none⟩

/-- The fallback manifest built over `govFallbackFile`. -/
def govFallbackManifest : Manifest :=
  ⟨"CARDANO_SNAPSHOT", "1.0.0", .str "conway", .int 1, "unknown",
   compute_sha256 [] (16 * 1024 * 1024), strftimeUTC t0, 0, false⟩

/-- A fallback-path file whose name yields nothing. -/
def plainNameFile : FileModel := ⟨"data", [], none⟩

/-- The all-defaults fallback manifest for `plainNameFile`. -/
def plainNameManifest : Manifest :=
  ⟨"CARDANO_SNAPSHOT", "1.0.0", .str "conway", .int 1, "unknown",
   compute_sha256 [] (16 * 1024 * 1024), strftimeUTC t0, 0, false⟩

/-- A character is not an ASCII uppercase letter (code points 65 to 90); a
string of such characters is what Python `.lower()` guarantees for ASCII. -/
def noUpperChar (c : Char) : Bool := !(65 ≤ c.toNat && c.toNat ≤ 90)

/-- A string contains no ASCII uppercase letter. -/
def noUpperString (s : String) : Bool := s.data.all noUpperChar

/-- A 1-byte file decoding to a valid 3-element-equivalent envelope, driving
the header path of `generate_manifest`. -/
def headerPathFile : FileModel := ⟨"h.bin", [2], some (.arr [.int 1, .map validKvs])⟩

/-- The manifest built over `headerPathFile`: header-derived fields plus the
hex-encoded 32-byte hash. -/
def headerPathManifest : Manifest :=
  ⟨"CARDANO_SNAPSHOT", "1.0.0", .str "conway", .int 1000000, bytesToHex hash32,
   compute_sha256 [2] (16 * 1024 * 1024), strftimeUTC t0, 1, false⟩

/-! ## Supporting lemmas -/

/-- Concatenating the chunks of a positive-size chunking restores the list. -/
theorem chunksOf_foldl_append (c : Nat) (hc : 0 < c) :
    ∀ (n : Nat) (l acc : List Nat), l.length ≤ n →
      (chunksOf c l).foldl (fun a b => a ++ b) acc = acc ++ l := by
  intro n
  induction n with
  | zero =>
      intro l acc hl
      have hnil : l = [] := List.length_eq_zero.mp (Nat.le_zero.mp hl)
      subst hnil
      rw [chunksOf]
      simp
  | succ n ih =>
      intro l acc hl
      by_cases hnil : l = []
      · subst hnil; rw [chunksOf]; simp
      · have hcond : ¬ (c = 0 ∨ l = []) := by
          push_neg
          exact ⟨Nat.pos_iff_ne_zero.mp hc, hnil⟩
        rw [chunksOf, dif_neg hcond, List.foldl_cons,
            ih (l.drop c) (acc ++ l.take c) ?_, List.append_assoc,
            List.take_append_drop]
        have hlen : 0 < l.length := List.length_pos.mpr hnil
        simp only [List.length_drop]
        omega

/-- With any positive chunk size the streaming hasher digests the whole file. -/
theorem compute_sha256_pos (content : List Nat) (c : Nat) (hc : 0 < c) :
    compute_sha256 content c = sha256hex content := by
  unfold compute_sha256
  rw [chunksOf_foldl_append c hc content.length content [] le_rfl]
  rfl

/-- A SHA-256 digest is 32 bytes. -/
theorem sha256bytes_length (msg : List Nat) : (sha256bytes msg).length = 32 := by
  unfold sha256bytes be4
  simp

/-- Hex encoding doubles the length. -/
theorem length_bytesToHex (bs : List Nat) : (bytesToHex bs).length = 2 * bs.length := by
  have key : ∀ l : List Nat,
      (l.foldr (fun b acc => hexDigitChar (b / 16) :: hexDigitChar (b % 16) :: acc)
        ([] : List Char)).length = 2 * l.length := by
    intro l
    induction l with
    | nil => rfl
    | cons b t ih => simp only [List.foldr_cons, List.length_cons, ih]; ring
  unfold bytesToHex
  simpa [String.length] using key bs

/-- Every character the hex encoder emits is a lowercase hex digit. -/
theorem isLowerHexChar_hexDigitChar (n : Nat) : isLowerHexChar (hexDigitChar n) = true := by
  have h16 : n % 16 < 16 := Nat.mod_lt _ (by norm_num)
  have key : ∀ m, m < 16 → isLowerHexChar (hexChars.getD m '0') = true := by decide
  simpa [hexDigitChar] using key (n % 16) h16

/-- Hex encodings are lowercase hex strings. -/
theorem lowerHex_bytesToHex (bs : List Nat) : isLowerHexString (bytesToHex bs) = true := by
  show (bs.foldr (fun b acc => hexDigitChar (b / 16) :: hexDigitChar (b % 16) :: acc)
        ([] : List Char)).all isLowerHexChar = true
  induction bs with
  | nil => rfl
  | cons b t ih =>
      simp only [List.foldr_cons, List.all_cons, isLowerHexChar_hexDigitChar,
        Bool.true_and]
      exact ih

/-- A hex digest has 64 characters. -/
theorem sha256hex_length (msg : List Nat) : (sha256hex msg).length = 64 := by
  unfold sha256hex
  rw [length_bytesToHex, sha256bytes_length]

/-- A hex digest is a lowercase hex string. -/
theorem sha256hex_lower (msg : List Nat) : isLowerHexString (sha256hex msg) = true :=
  lowerHex_bytesToHex _

/-- Lowering a character never yields an ASCII uppercase letter. -/
theorem noUpperChar_toLower (c : Char) : noUpperChar c.toLower = true := by
  have key : ∀ k, k < 26 → noUpperChar (Char.ofNat (97 + k)) = true := by decide
  simp only [Char.toLower]
  split
  · next h =>
      have h26 : c.toNat - 65 < 26 := by omega
      have hk := key (c.toNat - 65) h26
      have harg : 97 + (c.toNat - 65) = c.toNat + 32 := by omega
      rwa [harg] at hk
  · next h =>
      unfold noUpperChar
      rcases Nat.lt_or_ge c.toNat 65 with hlt | hge
      · have hd : decide (65 ≤ c.toNat) = false := by
          simp only [decide_eq_false_iff_not]
          omega
        simp [hd]
      · have h90 : 90 < c.toNat := by omega
        have hd : decide (c.toNat ≤ 90) = false := by
          simp only [decide_eq_false_iff_not]
          omega
        simp [hd]

/-- Mapping `Char.toLower` over a character list leaves no uppercase letter. -/
theorem all_noUpper_map_toLower (l : List Char) :
    (l.map Char.toLower).all noUpperChar = true := by
  induction l with
  | nil => rfl
  | cons c t ih =>
      simp only [List.map_cons, List.all_cons, noUpperChar_toLower, Bool.true_and]
      exact ih

/-- The output of Python `.lower()` contains no ASCII uppercase letter. -/
theorem noUpper_pyLower (s : String) : noUpperString (pyLower s) = true :=
  all_noUpper_map_toLower s.data

/-- Every character the hex encoder emits is outside the uppercase range. -/
theorem noUpperChar_hexDigitChar (n : Nat) : noUpperChar (hexDigitChar n) = true := by
  have h16 : n % 16 < 16 := Nat.mod_lt _ (by norm_num)
  have key : ∀ m, m < 16 → noUpperChar (hexChars.getD m '0') = true := by decide
  simpa [hexDigitChar] using key (n % 16) h16

/-- Hex encodings contain no ASCII uppercase letter. -/
theorem noUpper_bytesToHex (bs : List Nat) : noUpperString (bytesToHex bs) = true := by
  show (bs.foldr (fun b acc => hexDigitChar (b / 16) :: hexDigitChar (b % 16) :: acc)
        ([] : List Char)).all noUpperChar = true
  induction bs with
  | nil => rfl
  | cons b t ih =>
      simp only [List.foldr_cons, List.all_cons, noUpperChar_hexDigitChar,
        Bool.true_and]
      exact ih

/-- Python `v.hex()` succeeds only on byte strings, and then yields their hex
encoding. -/
theorem pyBytesHex_ok (v : CBOR) (s : String) (h : pyBytesHex v = .ok s) :
    ∃ bs, s = bytesToHex bs := by
  cases v <;> simp [pyBytesHex] at h
  exact ⟨_, h.symm⟩

/-- A header accepted by `parseHeaderFields` carries a hex-encoded hash: the
only way `block_hash` is produced is `block_hash_bytes.hex()`. -/
theorem parseHeaderFields_block_hash (hdr : CBOR) (c : HeaderCore)
    (h : parseHeaderFields hdr = .ok (some c)) :
    ∃ bs, c.block_hash = bytesToHex bs := by
  cases hdr with
  | map kvs =>
      rw [parseHeaderFields] at h
      cases hcond : (pyFalsy (dictGetD kvs 0 CBOR.null) ||
          isPyNone (dictGetD kvs 1 CBOR.null) ||
          pyFalsy (dictGetD kvs 2 CBOR.null)) with
      | true => rw [hcond] at h; simp at h
      | false =>
          rw [hcond] at h
          cases he : pyBytesHex (dictGetD kvs 2 CBOR.null) with
          | error msg => rw [he] at h; simp at h
          | ok bh =>
              rw [he] at h
              obtain ⟨bs, hbs⟩ := pyBytesHex_ok _ _ he
              cases e1 : pyGtZero (pyOrZero (dictGetD kvs 4 (CBOR.int 0))) with
              | error msg => rw [e1] at h; simp at h
              | ok g1 =>
                  rw [e1] at h
                  cases g1 with
                  | true =>
                      simp at h
                      rw [← h]
                      exact ⟨bs, hbs⟩
                  | false =>
                      cases e2 : pyGtZero (pyOrZero (dictGetD kvs 5 (CBOR.int 0))) with
                      | error msg => rw [e2] at h; simp at h
                      | ok gp =>
                          rw [e2] at h
                          simp at h
                          rw [← h]
                          exact ⟨bs, hbs⟩
  | int n => simp [parseHeaderFields] at h
  | bytes bs => simp [parseHeaderFields] at h
  | str s => simp [parseHeaderFields] at h
  | arr xs => simp [parseHeaderFields] at h
  | null => simp [parseHeaderFields] at h
  | bool b => simp [parseHeaderFields] at h

/-- A header accepted by `parse_cbor_header` carries a hex-encoded hash. -/
theorem parse_block_hash_hex (sz : Nat) (load : Option CBOR) (hi : HeaderInfo)
    (hp : parse_cbor_header sz load = .ok (some hi)) :
    ∃ bs, hi.block_hash = bytesToHex bs := by
  by_cases hsz : sz > 64 * 1024 * 1024
  · simp [parse_cbor_header, hsz] at hp
  · cases load with
    | none => simp [parse_cbor_header, hsz] at hp
    | some d =>
        cases d with
        | arr xs =>
            match xs with
            | [] => simp [parse_cbor_header, hsz] at hp
            | [x] => simp [parse_cbor_header, hsz] at hp
            | v :: hdr :: rest =>
                simp only [parse_cbor_header, hsz, if_false] at hp
                cases e : parseHeaderFields hdr with
                | error msg => rw [e] at hp; simp [Except.map] at hp
                | ok o =>
                    cases o with
                    | none => rw [e] at hp; simp [Except.map] at hp
                    | some c =>
                        rw [e] at hp
                        simp [Except.map] at hp
                        obtain ⟨bs, hbs⟩ := parseHeaderFields_block_hash hdr c e
                        rw [← hp]
                        exact ⟨bs, hbs⟩
        | int n => simp [parse_cbor_header, hsz] at hp
        | bytes bs => simp [parse_cbor_header, hsz] at hp
        | str s => simp [parse_cbor_header, hsz] at hp
        | map kvs => simp [parse_cbor_header, hsz] at hp
        | null => simp [parse_cbor_header, hsz] at hp
        | bool b => simp [parse_cbor_header, hsz] at hp

/-! ## Claim C2: chunk-size independence of the digest -/

/-- C2: for every byte content and every pair of positive chunk sizes,
`compute_sha256` returns the same hex digest string — the digest depends only
on the file's bytes, not on the chunk size used to stream them. -/
theorem compute_sha256_chunk_independent (content : List Nat) (c1 c2 : Nat)
    (h1 : 0 < c1) (h2 : 0 < c2) :
    compute_sha256 content c1 = compute_sha256 content c2 :=
  (compute_sha256_pos content c1 h1).trans (compute_sha256_pos content c2 h2).symm

/-- C2 witness: concrete chunk sizes 1 byte, 1 KiB and the full file length
agree on a concrete file. -/
theorem compute_sha256_chunk_independent_witness :
    0 < 1 ∧ 0 < 1024 ∧ 0 < 3 ∧
      compute_sha256 [202, 254, 66] 1 = compute_sha256 [202, 254, 66] 1024 ∧
      compute_sha256 [202, 254, 66] 1024 = compute_sha256 [202, 254, 66] 3 :=
  ⟨by decide, by decide, by decide,
   compute_sha256_chunk_independent [202, 254, 66] 1 1024 (by decide) (by decide),
   compute_sha256_chunk_independent [202, 254, 66] 1024 3 (by decide) (by decide)⟩

/-! ## Claim C1: wrongly-typed header fields raise instead of falling back -/

/-- C1: on a small file whose header has an integer `block_hash`, the call
`block_hash_bytes.hex()` sits outside the `try`/`except` around `cbor2.load`,
so `generate_manifest` raises `AttributeError` instead of routing to the
fallback path and returning a manifest. -/
theorem generate_manifest_raises_on_int_block_hash :
    generate_manifest (some intHashFile) none none none t0 =
      .error "AttributeError: object has no attribute hex" := rfl

/-! ## Claim C4: envelopes of length 2 or at least 4 are accepted -/

/-- C4 counterexample: the shape check is `len(data) >= 2`, so a 2-element
envelope `[version, header]` and a 4-element envelope both decode to a header,
where the claim demands a decode failure for anything but exactly 3 elements. -/
theorem parse_accepts_two_and_four_element_envelopes :
    parse_cbor_header 10 (some (.arr [.int 1, .map validKvs])) =
      .ok (some validHeaderInfo) ∧
    parse_cbor_header 10 (some (.arr [.int 1, .map validKvs, .arr [], .int 7])) =
      .ok (some validHeaderInfo) :=
  ⟨rfl, rfl⟩

/-- C4 amended: any top-level value that is not a sequence of at least two
elements decodes to no header (a quiet fallback, not an error); sequences of
length 2 or of length 4 and more are not rejected for their length. -/
theorem parse_rejects_short_envelopes (sz : Nat) (d : CBOR)
    (hshape : envelopeAtLeastTwo d = false) :
    parse_cbor_header sz (some d) = .ok none := by
  by_cases hsz : sz > 64 * 1024 * 1024
  · simp [parse_cbor_header, hsz]
  · cases d with
    | int n => simp [parse_cbor_header, hsz]
    | bytes bs => simp [parse_cbor_header, hsz]
    | str s => simp [parse_cbor_header, hsz]
    | null => simp [parse_cbor_header, hsz]
    | bool b => simp [parse_cbor_header, hsz]
    | map kvs => simp [parse_cbor_header, hsz]
    | arr xs =>
        match xs with
        | [] => simp [parse_cbor_header, hsz]
        | [x] => simp [parse_cbor_header, hsz]
        | x :: y :: r => simp [envelopeAtLeastTwo] at hshape

/-- C4 witness: a 1-element array is rejected. -/
theorem parse_rejects_short_envelopes_witness :
    envelopeAtLeastTwo (.arr [.int 5]) = false ∧
      parse_cbor_header 0 (some (.arr [.int 5])) = .ok none :=
  ⟨rfl, parse_rejects_short_envelopes 0 (.arr [.int 5]) rfl⟩

/-! ## Claim C5: the version field is never validated -/

/-- C5 counterexample: decoding succeeds on an envelope with `version = 99`,
and `generate_manifest` uses its header values for the manifest, where the
claim demands that any version other than 1 fail to decode. -/
theorem parse_accepts_version_99 :
    parse_cbor_header 1 (some version99Envelope) = .ok (some version99HeaderInfo) ∧
    (generate_manifest (some version99File) none none none t0).map
        (fun m => m.era) = .ok (.str "conway") ∧
    (generate_manifest (some version99File) none none none t0).map
        (fun m => m.block_height) = .ok (.int 1000000) :=
  ⟨rfl, rfl, rfl⟩

/-- C5 amended: the script never checks the envelope's version field — the
parse outcome is the same for any two version values, with the version merely
copied into the result. -/
theorem parse_cbor_header_ignores_version (sz : Nat) (v1 v2 hdr : CBOR)
    (rest : List CBOR) :
    parse_cbor_header sz (some (.arr (v1 :: hdr :: rest))) =
      (parse_cbor_header sz (some (.arr (v2 :: hdr :: rest)))).map
        (Option.map (fun hi => { hi with version := v1 })) := by
  by_cases hsz : sz > 64 * 1024 * 1024
  · simp [parse_cbor_header, hsz, Except.map]
  · cases e : parseHeaderFields hdr with
    | error msg => simp [parse_cbor_header, hsz, e, Except.map]
    | ok o =>
        cases o with
        | none => simp [parse_cbor_header, hsz, e, Except.map]
        | some c => simp [parse_cbor_header, hsz, e, Except.map]

/-! ## Claim C6: no 32-byte length check on the block hash -/

/-- C6 counterexample: a 1-byte block hash is accepted — the parser checks
only non-emptiness, never the 32-byte length the claim requires. -/
theorem parse_accepts_short_block_hash :
    parse_cbor_header 9 (some (.arr [.int 1, .map shortHashKvs])) =
      .ok (some ⟨.int 1, .str "conway", .int 5, "ab", false⟩) := rfl

/-- C6 amended: the parser rejects (returns no header, before reading any
record) every header map whose era is missing or falsy, whose height is
missing or `None`, or whose block hash is missing or empty; any non-empty
byte string of any length passes the hash check. -/
theorem parse_rejects_missing_or_empty_required_fields
    (sz : Nat) (v : CBOR) (kvs : List (CBOR × CBOR)) (rest : List CBOR)
    (hbad : (pyFalsy (dictGetD kvs 0 .null) || isPyNone (dictGetD kvs 1 .null) ||
             pyFalsy (dictGetD kvs 2 .null)) = true) :
    parse_cbor_header sz (some (.arr (v :: .map kvs :: rest))) = .ok none := by
  by_cases hsz : sz > 64 * 1024 * 1024
  · simp [parse_cbor_header, hsz]
  · simp [parse_cbor_header, hsz, parseHeaderFields, hbad, Except.map]

/-- C6 witness: a header map with all required keys absent is rejected. -/
theorem parse_rejects_missing_or_empty_required_fields_witness :
    (pyFalsy (dictGetD [] 0 .null) || isPyNone (dictGetD [] 1 .null) ||
      pyFalsy (dictGetD [] 2 .null)) = true ∧
    parse_cbor_header 0 (some (.arr [.int 1, .map []])) = .ok none :=
  ⟨rfl, parse_rejects_missing_or_empty_required_fields 0 (.int 1) [] [] rfl⟩


/-! ## Claim C7: the filename rule is `cbor`-only, signed, and at-least-3-part -/

/-- C7 counterexample: (i) the documented shape with a non-`cbor` extension
yields nothing, though the claim promises derivation for any extension;
(ii) a signed first component is accepted, though the claim requires an
unsigned integer; (iii) a 4-component name is accepted, though the claim
restricts derivation to exactly `<int>.<hex>.<ext>`. -/
theorem derive_from_filename_shape_counterexample :
    derive_from_filename "5.ab.bin" = (none, none) ∧
    derive_from_filename "-5.ab.cbor" = (some (-5), some "ab") ∧
    derive_from_filename "5.ab.extra.cbor" = (some 5, some "ab") :=
  ⟨rfl, rfl, rfl⟩

/-- C7 amended: `derive_from_filename` realizes exactly the rule stated by
`derive_from_filename_spec`. -/
theorem derive_from_filename_eq_spec (name : String) :
    derive_from_filename name = derive_from_filename_spec name := by
  unfold derive_from_filename derive_from_filename_spec
  dsimp only
  generalize pySplitDot name = parts
  generalize (decide (parts.length ≥ 3) && (pyLower (parts.getLastD "") == "cbor")) = A
  generalize (parts.getD 1 "").data.all isHexCharPy = B
  generalize pyInt (parts.headD "") = I
  cases A <;> cases B <;> cases I <;> simp

/-! ## Shape of `generate_manifest` results -/

/-- When header parsing returns no header, `generate_manifest` builds the
fallback manifest from overrides, filename-derived values and defaults. -/
theorem generate_manifest_fallback (f : FileModel) (eo ho : Option String)
    (bo : Option Int) (t : DateTimeUTC)
    (hp : parse_cbor_header f.content.length f.loadResult = .ok none) :
    generate_manifest (some f) eo ho bo t =
      .ok { magic := "CARDANO_SNAPSHOT", version := "1.0.0",
            era := .str (firstTruthyStr eo none "conway"),
            block_height := .int (firstTruthyInt bo (derive_from_filename f.name).1 1),
            block_hash := pyLower (firstTruthyStr ho (derive_from_filename f.name).2 "unknown"),
            sha256 := compute_sha256 f.content (16 * 1024 * 1024),
            created_at := strftimeUTC t,
            size_bytes := f.content.length,
            governance_section_present := false } := by
  unfold generate_manifest
  dsimp only
  rw [hp]

/-- When header parsing succeeds, `generate_manifest` takes era, height, hash
and the governance flag from the parsed header, ignoring every override. -/
theorem generate_manifest_header (f : FileModel) (eo ho : Option String)
    (bo : Option Int) (t : DateTimeUTC) (hi : HeaderInfo)
    (hp : parse_cbor_header f.content.length f.loadResult = .ok (some hi)) :
    generate_manifest (some f) eo ho bo t =
      .ok { magic := "CARDANO_SNAPSHOT", version := "1.0.0",
            era := hi.era, block_height := hi.block_height,
            block_hash := hi.block_hash,
            sha256 := compute_sha256 f.content (16 * 1024 * 1024),
            created_at := strftimeUTC t,
            size_bytes := f.content.length,
            governance_section_present := hi.governance_section_present } := by
  unfold generate_manifest
  dsimp only
  rw [hp]

/-! ## Claim C3: precedence of overrides, filename values and decoded values -/

/-- C3 counterexample: with a caller-supplied block height override of `0`,
the filename-derived height `5` wins — `block_height_opt or slot_from_name`
discards a falsy override — so overrides do not always win. -/
theorem override_zero_height_loses_to_filename :
    (generate_manifest (some zeroOverrideFile) none none (some 0) t0).map
        (fun m => m.block_height) = .ok (.int 5) ∧
    CBOR.int 5 ≠ CBOR.int 0 :=
  ⟨rfl, by simp⟩

/-- C3 amended: decoded header values take precedence over everything; in the
fallback path a truthy override (nonzero height, non-empty string) wins over
the filename-derived value, while a zero or empty override is treated as
absent, letting the truthy filename-derived value win. -/
theorem generate_manifest_precedence (f : FileModel) (eo ho : Option String)
    (bo : Option Int) (t : DateTimeUTC) (m : Manifest)
    (hm : generate_manifest (some f) eo ho bo t = .ok m) :
    (∀ hi, parse_cbor_header f.content.length f.loadResult = .ok (some hi) →
        m.era = hi.era ∧ m.block_height = hi.block_height ∧
        m.block_hash = hi.block_hash) ∧
    (parse_cbor_header f.content.length f.loadResult = .ok none →
        (∀ n, bo = some n → n ≠ 0 → m.block_height = .int n) ∧
        (∀ s, ho = some s → s ≠ "" → m.block_hash = pyLower s) ∧
        (∀ s, eo = some s → s ≠ "" → m.era = .str s) ∧
        ((bo = none ∨ bo = some 0) →
          ∀ k, (derive_from_filename f.name).1 = some k → k ≠ 0 →
            m.block_height = .int k) ∧
        ((ho = none ∨ ho = some "") →
          ∀ s, (derive_from_filename f.name).2 = some s → s ≠ "" →
            m.block_hash = pyLower s)) := by
  constructor
  · intro hi hp
    rw [generate_manifest_header f eo ho bo t hi hp] at hm
    simp only [Except.ok.injEq] at hm
    subst hm
    exact ⟨rfl, rfl, rfl⟩
  · intro hp
    rw [generate_manifest_fallback f eo ho bo t hp] at hm
    simp only [Except.ok.injEq] at hm
    subst hm
    refine ⟨?_, ?_, ?_, ?_, ?_⟩
    · intro n hb hn
      subst hb
      simp [firstTruthyInt, truthyInt, hn]
    · intro s hh hs
      subst hh
      simp [firstTruthyStr, truthyStr, hs]
    · intro s he hs
      subst he
      simp [firstTruthyStr, truthyStr, hs]
    · intro hb k hk hkn
      have hbo : truthyInt bo = none := by
        rcases hb with hb | hb <;> subst hb <;> rfl
      simp only [firstTruthyInt, hbo, hk]
      simp [truthyInt, hkn]
    · intro hh s hs hsn
      have hho : truthyStr ho = none := by
        rcases hh with hh | hh <;> subst hh <;> rfl
      simp only [firstTruthyStr, hho, hs]
      simp [truthyStr, hsn]

/-- C3 witness: at a concrete fallback file with truthy overrides, the
overrides win; the degenerate overrides `some 0` / `some ""` would lose. -/
theorem generate_manifest_precedence_witness :
    (generate_manifest (some precedenceFile) (some "alonzo") (some "AB") (some 9) t0 =
      .ok precedenceManifest) ∧
    precedenceManifest.block_height = .int 9 ∧
    precedenceManifest.block_hash = pyLower "AB" ∧
    precedenceManifest.era = .str "alonzo" :=
  ⟨rfl,
   ((generate_manifest_precedence precedenceFile (some "alonzo") (some "AB") (some 9)
      t0 precedenceManifest rfl).2 rfl).1 9 rfl (by decide),
   ((generate_manifest_precedence precedenceFile (some "alonzo") (some "AB") (some 9)
      t0 precedenceManifest rfl).2 rfl).2.1 "AB" rfl (by decide),
   ((generate_manifest_precedence precedenceFile (some "alonzo") (some "AB") (some 9)
      t0 precedenceManifest rfl).2 rfl).2.2.1 "alonzo" rfl (by decide)⟩

/-! ## Claim C8: manifest fields -/

/-- C8 counterexample: a fallback manifest carries the literal block hash
`"unknown"`, which is not a hex string, against the claim that `block_hash`
is always lowercase hex. -/
theorem manifest_block_hash_not_hex_counterexample :
    (generate_manifest (some unknownHashFile) none none none t0).map
        (fun m => m.block_hash) = .ok "unknown" ∧
    isLowerHexString "unknown" = false :=
  ⟨rfl, rfl⟩

/-- C8 amended: every successfully built manifest has the magic constant, a
field named `version` (not `format_version`) with value `"1.0.0"`, a `sha256`
of exactly 64 lowercase hex characters, the file's byte count, and a
`created_at` formatted at second precision in UTC with a literal `Z` suffix;
`block_hash` never contains an ASCII uppercase letter, and whenever the
header was decoded it is a lowercase hex string — only the fallback path may
set it to the non-hex (still lowercase) literal `"unknown"`. -/
theorem manifest_shape_amended (f : FileModel) (eo ho : Option String)
    (bo : Option Int) (t : DateTimeUTC) (m : Manifest)
    (hm : generate_manifest (some f) eo ho bo t = .ok m) :
    m.magic = "CARDANO_SNAPSHOT" ∧ m.version = "1.0.0" ∧
    m.sha256.length = 64 ∧ isLowerHexString m.sha256 = true ∧
    m.size_bytes = f.content.length ∧
    m.created_at = strftimeUTC t ∧ (∃ p, m.created_at = p ++ "Z") ∧
    noUpperString m.block_hash = true ∧
    (∀ hi, parse_cbor_header f.content.length f.loadResult = .ok (some hi) →
        isLowerHexString m.block_hash = true) := by
  cases e : parse_cbor_header f.content.length f.loadResult with
  | error msg =>
      rw [generate_manifest] at hm
      dsimp only at hm
      rw [e] at hm
      exact absurd hm (by simp)
  | ok o =>
      have hsha : ∀ c n, ((compute_sha256 c n).length = 64 ∧
          isLowerHexString (compute_sha256 c n) = true) := by
        intro c n
        unfold compute_sha256
        exact ⟨sha256hex_length _, sha256hex_lower _⟩
      cases o with
      | none =>
          rw [generate_manifest_fallback f eo ho bo t e] at hm
          simp only [Except.ok.injEq] at hm
          subst hm
          refine ⟨rfl, rfl, (hsha _ _).1, (hsha _ _).2, rfl, rfl, ⟨_, rfl⟩,
            noUpper_pyLower _, ?_⟩
          intro hi hp
          exact absurd hp (by simp)
      | some hi =>
          obtain ⟨bs, hbs⟩ := parse_block_hash_hex f.content.length f.loadResult hi e
          rw [generate_manifest_header f eo ho bo t hi e] at hm
          simp only [Except.ok.injEq] at hm
          subst hm
          refine ⟨rfl, rfl, (hsha _ _).1, (hsha _ _).2, rfl, rfl, ⟨_, rfl⟩, ?_, ?_⟩
          · show noUpperString hi.block_hash = true
            rw [hbs]
            exact noUpper_bytesToHex bs
          · intro hi2 hp2
            show isLowerHexString hi.block_hash = true
            rw [hbs]
            exact lowerHex_bytesToHex bs

/-- C8 witness: the amended manifest shape at a concrete fallback build and a
concrete header-path build, the latter with a lowercase-hex block hash. -/
theorem manifest_shape_amended_witness :
    ((generate_manifest (some emptyFallbackFile) none none none t0 =
        .ok emptyFallbackManifest) ∧
     (emptyFallbackManifest.magic = "CARDANO_SNAPSHOT" ∧
      emptyFallbackManifest.version = "1.0.0" ∧
      emptyFallbackManifest.sha256.length = 64 ∧
      isLowerHexString emptyFallbackManifest.sha256 = true ∧
      emptyFallbackManifest.size_bytes = emptyFallbackFile.content.length ∧
      emptyFallbackManifest.created_at = strftimeUTC t0 ∧
      (∃ p, emptyFallbackManifest.created_at = p ++ "Z") ∧
      noUpperString emptyFallbackManifest.block_hash = true ∧
      (∀ hi, parse_cbor_header emptyFallbackFile.content.length
          emptyFallbackFile.loadResult = .ok (some hi) →
        isLowerHexString emptyFallbackManifest.block_hash = true))) ∧
    ((generate_manifest (some headerPathFile) none none none t0 =
        .ok headerPathManifest) ∧
     parse_cbor_header headerPathFile.content.length headerPathFile.loadResult =
        .ok (some validHeaderInfo) ∧
     noUpperString headerPathManifest.block_hash = true ∧
     isLowerHexString headerPathManifest.block_hash = true) :=
  ⟨⟨rfl, manifest_shape_amended emptyFallbackFile none none none t0
      emptyFallbackManifest rfl⟩,
   ⟨rfl, rfl,
    (manifest_shape_amended headerPathFile none none none t0
      headerPathManifest rfl).2.2.2.2.2.2.2.1,
    (manifest_shape_amended headerPathFile none none none t0
      headerPathManifest rfl).2.2.2.2.2.2.2.2 validHeaderInfo rfl⟩⟩

/-! ## Claim C9: the governance flag -/

/-- Evaluating `(n or 0) > 0` on a Python int yields exactly `0 < n`. -/
theorem pyGtZero_pyOrZero_int (n : Int) :
    pyGtZero (pyOrZero (.int n)) = .ok (decide (0 < n)) := by
  by_cases hn : n = 0
  · subst hn; rfl
  · simp [pyOrZero, pyFalsy, pyGtZero, hn]

/-- C9: a successfully parsed header's governance flag is exactly
`declared_gov_action_count > 0 OR declared_param_set_count > 0` (a missing
count defaulting to 0 through `header.get(k, 0)`), and every fallback-path
manifest carries `governance_section_present = false`. -/
theorem governance_flag_semantics :
    (∀ (sz : Nat) (v : CBOR) (kvs : List (CBOR × CBOR)) (rest : List CBOR)
        (hi : HeaderInfo) (g p : Int),
        parse_cbor_header sz (some (.arr (v :: .map kvs :: rest))) = .ok (some hi) →
        dictGetD kvs 4 (.int 0) = .int g →
        dictGetD kvs 5 (.int 0) = .int p →
        hi.governance_section_present = (decide (0 < g) || decide (0 < p))) ∧
    (∀ (f : FileModel) (eo ho : Option String) (bo : Option Int)
        (t : DateTimeUTC) (m : Manifest),
        parse_cbor_header f.content.length f.loadResult = .ok none →
        generate_manifest (some f) eo ho bo t = .ok m →
        m.governance_section_present = false) := by
  constructor
  · intro sz v kvs rest hi g p hp hg hpp
    by_cases hsz : sz > 64 * 1024 * 1024
    · simp [parse_cbor_header, hsz] at hp
    · simp only [parse_cbor_header, hsz, if_false] at hp
      rw [parseHeaderFields] at hp
      rw [hg, hpp, pyGtZero_pyOrZero_int, pyGtZero_pyOrZero_int] at hp
      cases hcond : (pyFalsy (dictGetD kvs 0 CBOR.null) ||
          isPyNone (dictGetD kvs 1 CBOR.null) ||
          pyFalsy (dictGetD kvs 2 CBOR.null)) with
      | true => rw [hcond] at hp; simp [Except.map] at hp
      | false =>
          rw [hcond] at hp
          cases he : pyBytesHex (dictGetD kvs 2 CBOR.null) with
          | error msg => rw [he] at hp; simp [Except.map] at hp
          | ok bh =>
              rw [he] at hp
              cases hg1 : decide (0 < g) with
              | true =>
                  rw [hg1] at hp
                  simp [Except.map] at hp
                  subst hp
                  simp
              | false =>
                  rw [hg1] at hp
                  simp [Except.map] at hp
                  subst hp
                  simp
  · intro f eo ho bo t m hp hm
    rw [generate_manifest_fallback f eo ho bo t hp] at hm
    simp only [Except.ok.injEq] at hm
    subst hm
    rfl

/-- C9 witness: a concrete header with declared counts (2, 0) parses with the
flag `true`, and a concrete fallback manifest carries the flag `false`. -/
theorem governance_flag_semantics_witness :
    (parse_cbor_header 1 (some (.arr [.int 1, .map govKvs])) =
        .ok (some govHeaderInfo) ∧
      dictGetD govKvs 4 (.int 0) = .int 2 ∧
      dictGetD govKvs 5 (.int 0) = .int 0 ∧
      govHeaderInfo.governance_section_present =
        (decide ((0 : Int) < 2) || decide ((0 : Int) < 0))) ∧
    (parse_cbor_header govFallbackFile.content.length govFallbackFile.loadResult =
        .ok none ∧
      generate_manifest (some govFallbackFile) none none none t0 =
        .ok govFallbackManifest ∧
      govFallbackManifest.governance_section_present = false) :=
  ⟨⟨rfl, rfl, rfl,
    governance_flag_semantics.1 1 (.int 1) govKvs [] govHeaderInfo 2 0 rfl rfl rfl⟩,
   ⟨rfl, rfl,
    governance_flag_semantics.2 govFallbackFile none none none t0
      govFallbackManifest rfl rfl⟩⟩

/-! ## Claim C10: fallback defaults and truthiness of overrides -/

/-- C10: with no usable override and no filename-derived value the fallback
manifest defaults to era `"conway"`, height `1` and the literal hash
`"unknown"`; and because defaulting is by truthiness, a height override of `0`
or an empty-string hash override behaves exactly like an absent override. -/
theorem fallback_defaults_and_truthiness :
    (∀ (f : FileModel) (t : DateTimeUTC) (m : Manifest),
        parse_cbor_header f.content.length f.loadResult = .ok none →
        derive_from_filename f.name = (none, none) →
        generate_manifest (some f) none none none t = .ok m →
        m.era = .str "conway" ∧ m.block_height = .int 1 ∧
        m.block_hash = "unknown") ∧
    (∀ (f : Option FileModel) (eo ho : Option String) (t : DateTimeUTC),
        generate_manifest f eo ho (some 0) t = generate_manifest f eo ho none t) ∧
    (∀ (f : Option FileModel) (eo : Option String) (bo : Option Int)
        (t : DateTimeUTC),
        generate_manifest f eo (some "") bo t = generate_manifest f eo none bo t) := by
  refine ⟨?_, ?_, ?_⟩
  · intro f t m hp hd hm
    rw [generate_manifest_fallback f none none none t hp] at hm
    simp only [Except.ok.injEq] at hm
    subst hm
    refine ⟨rfl, ?_, ?_⟩
    · simp only [hd]
      rfl
    · simp only [hd]
      rfl
  · intro f eo ho t
    rfl
  · intro f eo bo t
    rfl

/-- C10 witness: the defaults at a concrete fallback build, and the
truthiness equations at concrete arguments. -/
theorem fallback_defaults_and_truthiness_witness :
    (parse_cbor_header plainNameFile.content.length plainNameFile.loadResult =
        .ok none ∧
      derive_from_filename "data" = (none, none) ∧
      generate_manifest (some plainNameFile) none none none t0 =
        .ok plainNameManifest ∧
      (plainNameManifest.era = .str "conway" ∧
       plainNameManifest.block_height = .int 1 ∧
       plainNameManifest.block_hash = "unknown")) ∧
    generate_manifest (some plainNameFile) none none (some 0) t0 =
      generate_manifest (some plainNameFile) none none none t0 :=
  ⟨⟨rfl, rfl, rfl,
    fallback_defaults_and_truthiness.1 plainNameFile t0 plainNameManifest rfl rfl rfl⟩,
   fallback_defaults_and_truthiness.2.1 (some plainNameFile) none none t0⟩
